import Mathlib

/-!
Shallow embedding of the configuration layer (src/config.py) and the store
client manager (src/firebase_client.py) of the autonomous-generative-trading
repository, together with theorems settling the specification claims about
them.  Machine floats never undergo arithmetic in the modelled code, they are
only parsed from decimal literals and stored, so they are represented exactly
(a rational for a finite value, plus infinity and NaN markers).
-/

deriving instance DecidableEq for Except

namespace AGTM

/-- Manager lifecycle states named by the specification (section 3).  The
source manager exposes only a boolean readiness flag, so `Initializing` and
`Failed` are never the value of `managerState` below; they are included so the
error type can speak the vocabulary of the spec. -/
inductive MgrState where
  | Uninitialized
  | Initializing
  | Ready
  | Failed
deriving DecidableEq, Repr

/-- Python exception values relevant to this development.  `valueError`
models `ValueError` with its message; `notReadyError` models the NotReadyError
of the spec, carrying the manager state it names. -/
inductive PyErr where
  | valueError (msg : String)
  | notReadyError (state : MgrState)
deriving DecidableEq, Repr

/-- A single-quote character, used to build Python repr-style messages. -/
def quoteS : String := String.mk [Char.ofNat 39]

/-- Python repr of a short string as it appears inside exception messages
(the common case: the string is wrapped in single quotes). -/
def pyRepr (s : String) : String := quoteS ++ s ++ quoteS

/-- Message head of the ValueError raised by Python float() on bad input. -/
def msgFloatHead : String := "could not convert string to float: "

/-- Message head of the ValueError raised by Python int() on bad input. -/
def msgIntHead : String := "invalid literal for int() with base 10: "

/-- Numeric value of one ASCII digit character. -/
def digToNat (c : Char) : Nat := c.toNat - 48

/-- Accumulate a base-ten digit list into a natural number. -/
def digitsToNat : List Char → Nat → Nat
  | [], acc => acc
  | c :: cs, acc => digitsToNat cs (10 * acc + digToNat c)

/-- Split a character list into its leading ASCII digits and the rest. -/
def takeDigits (cs : List Char) : List Char × List Char :=
  cs.span (fun c => c.isDigit)

/-- Fuel-indexed Euclid worker: the second operand strictly decreases, so
fuel one more than it always suffices. -/
def gcdFuel : Nat → Nat → Nat → Nat
  | 0, a, _ => a
  | _ + 1, a, 0 => a
  | f + 1, a, b => gcdFuel f b (a % b)

/-- Greatest common divisor by Euclid with explicit fuel. -/
def ngcd (a b : Nat) : Nat := gcdFuel (b + 1) a b

/-- An exact rational in lowest terms: numerator over positive denominator.
Values built by `mkPyQ` are canonical, so structural equality is value
equality. -/
structure PyQ where
  num : Int
  den : Nat
deriving DecidableEq, Repr

/-- Build the canonical rational n / d for a positive denominator d. -/
def mkPyQ (n : Int) (d : Nat) : PyQ :=
  let g := ngcd n.natAbs d
  if g = 0 then ⟨n, d⟩ else ⟨n / (g : Int), d / g⟩

/-- Exact value of a decimal literal: the digits of the integer and
fractional parts, scaled by ten to the (signed) exponent. -/
def decValue (intpart fracpart : List Char) (e : Int) : PyQ :=
  let n : Int := (digitsToNat (intpart ++ fracpart) 0 : Int)
  let s : Int := e - (fracpart.length : Int)
  if 0 ≤ s then mkPyQ (n * (10 : Int) ^ s.toNat) 1
  else mkPyQ n ((10 : Nat) ^ (-s).toNat)

/-- Negate a canonical rational (canonical form is preserved). -/
def negPyQ (q : PyQ) : PyQ := ⟨-q.num, q.den⟩

/-- Parse the optional exponent tail of a Python float literal: either
nothing, or e/E followed by an optionally signed nonempty digit string that
must consume the whole rest. -/
def parseExpTail (cs : List Char) : Option Int :=
  match cs with
  | [] => some 0
  | c :: rest =>
    if c = 'e' ∨ c = 'E' then
      match rest with
      | [] => none
      | d :: ds =>
        if d = '+' then
          let (dg, rem) := takeDigits ds
          if dg ≠ [] ∧ rem = [] then some (digitsToNat dg 0 : Int) else none
        else if d = '-' then
          let (dg, rem) := takeDigits ds
          if dg ≠ [] ∧ rem = [] then some (-(digitsToNat dg 0 : Int)) else none
        else
          let (dg, rem) := takeDigits (d :: ds)
          if dg ≠ [] ∧ rem = [] then some (digitsToNat dg 0 : Int) else none
    else none

/-- Core of Python float() on an unsigned body: digits, an optional point
with further digits (at least one digit overall), and an optional exponent.
Returns the exact rational value.  Digit-group underscores and non-ASCII
digits, which CPython also accepts, are outside the modelled fragment. -/
def floatCore (cs : List Char) : Option PyQ :=
  let (ip, r1) := takeDigits cs
  match r1 with
  | [] => if ip = [] then none else some (decValue ip [] 0)
  | c :: rest =>
    if c = '.' then
      let (fp, r2) := takeDigits rest
      if ip = [] ∧ fp = [] then none
      else
        match parseExpTail r2 with
        | none => none
        | some e => some (decValue ip fp e)
    else
      if ip = [] then none
      else
        match parseExpTail (c :: rest) with
        | none => none
        | some e => some (decValue ip [] e)

/-- Strip leading and trailing whitespace, as Python numeric conversions do. -/
def stripWs (cs : List Char) : List Char :=
  ((cs.dropWhile Char.isWhitespace).reverse.dropWhile Char.isWhitespace).reverse

/-- Case-insensitive comparison of a character list against a lowercase word. -/
def lowerEq (cs : List Char) (s : List Char) : Bool :=
  cs.map Char.toLower == s

/-- The value of a Python float: an exact finite rational, a signed
infinity, or NaN.  The modelled code only parses and stores floats, so this
exact representation is faithful. -/
inductive PyFloatVal where
  | finite (q : PyQ)
  | infinite (neg : Bool)
  | nan
deriving DecidableEq, Repr

/-- Model of Python `float(s)` for str input: strip whitespace, take an
optional sign, accept inf/infinity/nan case-insensitively, otherwise parse a
decimal literal; on failure raise ValueError naming the offending value. -/
def pyFloat (s : String) : Except PyErr PyFloatVal :=
  let cs := stripWs s.data
  let sb : Bool × List Char :=
    match cs with
    | c :: rest =>
      if c = '-' then (true, rest) else if c = '+' then (false, rest) else (false, cs)
    | [] => (false, [])
  let neg := sb.1
  let body := sb.2
  if lowerEq body ['i', 'n', 'f'] ∨ lowerEq body ['i', 'n', 'f', 'i', 'n', 'i', 't', 'y'] then
    .ok (.infinite neg)
  else if lowerEq body ['n', 'a', 'n'] then .ok .nan
  else
    match floatCore body with
    | some q => .ok (.finite (if neg then negPyQ q else q))
    | none => .error (.valueError (msgFloatHead ++ pyRepr s))

/-- Model of Python `int(s)` for str input in base 10: strip whitespace,
take an optional sign, require a nonempty all-digit body; on failure raise
ValueError naming the offending value.  Digit-group underscores are outside
the modelled fragment. -/
def pyInt (s : String) : Except PyErr Int :=
  let cs := stripWs s.data
  let sb : Bool × List Char :=
    match cs with
    | c :: rest =>
      if c = '-' then (true, rest) else if c = '+' then (false, rest) else (false, cs)
    | [] => (false, [])
  let neg := sb.1
  let body := sb.2
  if body ≠ [] ∧ body.all Char.isDigit then
    .ok ((if neg then -1 else 1) * (digitsToNat body 0 : Int))
  else .error (.valueError (msgIntHead ++ pyRepr s))

/-- Boolean test that `pat` is a prefix of `s` (character lists). -/
def lpre : List Char → List Char → Bool
  | [], _ => true
  | _ :: _, [] => false
  | p :: ps, c :: cs => p == c && lpre ps cs

/-- Fuel-indexed worker for `pyReplace`: scan left to right, replacing each
non-overlapping occurrence of `pat` by `rep`.  The fuel starts at the length
of the scanned list and each step consumes at least one character. -/
def replFuel : Nat → List Char → List Char → List Char → List Char
  | 0, s, _, _ => s
  | _ + 1, [], _, _ => []
  | f + 1, c :: cs, pat, rep =>
    if lpre pat (c :: cs) then rep ++ replFuel f ((c :: cs).drop pat.length) pat rep
    else c :: replFuel f cs pat rep

/-- Model of Python `s.replace(pat, rep)` for a nonempty pattern: every
non-overlapping occurrence of `pat`, found left to right, is replaced by
`rep`.  An empty pattern is returned unchanged (the modelled code only uses
the two-character pattern backslash-n). -/
def pyReplace (s pat rep : String) : String :=
  if pat.data = [] then s
  else String.mk (replFuel s.data.length s.data pat.data rep.data)

/-- Worker for `mentions`: does `pat` occur as a contiguous substring? -/
def containsSub : List Char → List Char → Bool
  | [], pat => decide (pat = [])
  | c :: cs, pat => lpre pat (c :: cs) || containsSub cs pat

/-- A message names a field when the field name occurs in the message text. -/
def mentions (msg fld : String) : Bool :=
  containsSub msg.data fld.data

/-- The process environment, as an association list from variable name to
value (absent variables simply have no entry). -/
def EnvAssoc : Type := List (String × String)

/-- Model of `os.getenv(key, default)`: the variable's value when present,
otherwise the default. -/
def getenvD (env : EnvAssoc) (key dflt : String) : String :=
  (List.lookup key env).getD dflt

/-- The FirebaseConfig dataclass of src/config.py lines 14-27: one string
field per environment variable, with the source's defaults. -/
structure FirebaseConfig where
  type : String
  project_id : String
  private_key_id : String
  private_key : String
  client_email : String
  client_id : String
  auth_uri : String
  token_uri : String
  auth_provider_x509_cert_url : String
  client_x509_cert_url : String
  universe_domain : String
deriving DecidableEq, Repr

/-- The TradingConfig dataclass of src/config.py lines 29-47 (field values;
the dataclass machinery itself is modelled in `importConfigModule`). -/
structure TradingConfig where
  exchange_id : String
  api_key : String
  api_secret : String
  initial_capital : PyFloatVal
  risk_per_trade : PyFloatVal
  max_open_positions : Int
  data_timeframes : List String
  backtest_period_days : Int
  trading_symbols : List String
deriving DecidableEq, Repr

/-- The GeneticConfig dataclass of src/config.py lines 49-57. -/
structure GeneticConfig where
  population_size : Int
  generations : Int
  mutation_rate : PyFloatVal
  crossover_rate : PyFloatVal
  elite_size : Int
  strategy_complexity_range : Int × Int
deriving DecidableEq, Repr

/-- The LoggingConfig dataclass of src/config.py lines 59-64. -/
structure LoggingConfig where
  level : String
  format : String
  file_path : String
deriving DecidableEq, Repr

/-- The Config class of src/config.py lines 66-75: the four sub-groups. -/
structure Config where
  firebase : FirebaseConfig
  trading : TradingConfig
  genetic : GeneticConfig
  logging : LoggingConfig
deriving DecidableEq, Repr

/-- Field semantics of the FirebaseConfig class body (src/config.py lines
17-27): each field is its environment read with the source's default, and
`private_key` additionally has every backslash-n escape replaced by a
literal newline. -/
def firebaseFromEnv (env : EnvAssoc) : FirebaseConfig :=
  { type := getenvD env ("FIREBASE_TYPE") ("service_account")
    project_id := getenvD env ("FIREBASE_PROJECT_ID") ("")
    private_key_id := getenvD env ("FIREBASE_PRIVATE_KEY_ID") ("")
    private_key := pyReplace (getenvD env ("FIREBASE_PRIVATE_KEY") ("")) ("\\n") ("\n")
    client_email := getenvD env ("FIREBASE_CLIENT_EMAIL") ("")
    client_id := getenvD env ("FIREBASE_CLIENT_ID") ("")
    auth_uri := getenvD env ("FIREBASE_AUTH_URI") ("https://accounts.google.com/o/oauth2/auth")
    token_uri := getenvD env ("FIREBASE_TOKEN_URI") ("https://oauth2.googleapis.com/token")
    auth_provider_x509_cert_url :=
      getenvD env ("FIREBASE_AUTH_PROVIDER_CERT_URL") ("https://www.googleapis.com/oauth2/v1/certs")
    client_x509_cert_url := getenvD env ("FIREBASE_CLIENT_CERT_URL") ("")
    universe_domain := getenvD env ("FIREBASE_UNIVERSE_DOMAIN") ("googleapis.com") }

/-- Field semantics of the TradingConfig class body (src/config.py lines
33-47), in source evaluation order; a failed numeric conversion raises, so
the result is Except. -/
def tradingFromEnv (env : EnvAssoc) : Except PyErr TradingConfig := do
  let ic ← pyFloat (getenvD env ("INITIAL_CAPITAL") ("10000.0"))
  let rp ← pyFloat (getenvD env ("RISK_PER_TRADE") ("0.02"))
  let mo ← pyInt (getenvD env ("MAX_OPEN_POSITIONS") ("5"))
  let bp ← pyInt (getenvD env ("BACKTEST_PERIOD_DAYS") ("30"))
  pure
    { exchange_id := getenvD env ("EXCHANGE_ID") ("binance")
      api_key := getenvD env ("EXCHANGE_API_KEY") ("")
      api_secret := getenvD env ("EXCHANGE_API_SECRET") ("")
      initial_capital := ic
      risk_per_trade := rp
      max_open_positions := mo
      data_timeframes := [("1m"), ("5m"), ("15m"), ("1h"), ("4h"), ("1d")]
      backtest_period_days := bp
      trading_symbols := [("BTC/USDT"), ("ETH/USDT"), ("SOL/USDT"), ("ADA/USDT")] }

/-- Field semantics of the GeneticConfig class body (src/config.py lines
52-57), in source evaluation order. -/
def geneticFromEnv (env : EnvAssoc) : Except PyErr GeneticConfig := do
  let ps ← pyInt (getenvD env ("POPULATION_SIZE") ("50"))
  let ge ← pyInt (getenvD env ("GENERATIONS") ("100"))
  let mr ← pyFloat (getenvD env ("MUTATION_RATE") ("0.1"))
  let cr ← pyFloat (getenvD env ("CROSSOVER_RATE") ("0.7"))
  let es ← pyInt (getenvD env ("ELITE_SIZE") ("5"))
  pure
    { population_size := ps
      generations := ge
      mutation_rate := mr
      crossover_rate := cr
      elite_size := es
      strategy_complexity_range := (3, 10) }

/-- Field semantics of the LoggingConfig class body (src/config.py lines
62-64). -/
def loggingFromEnv (env : EnvAssoc) : LoggingConfig :=
  { level := getenvD env ("LOG_LEVEL") ("INFO")
    format := "%(asctime)s - %(name)s - %(levelname)s - %(message)s"
    file_path := getenvD env ("LOG_FILE") ("trading_system.log") }

/-- Message of the ValueError raised at src/config.py line 80. -/
def msgProjRequired : String := "FIREBASE_PROJECT_ID must be set in environment variables"

/-- Message of the ValueError raised at src/config.py line 83. -/
def msgCredRequired : String := "Exchange API credentials must be set"

/-- Config._validate_config (src/config.py lines 77-83): an empty project
id raises first; otherwise an empty API key or API secret raises one shared
message; otherwise validation passes.  Python `not s` on a string is
emptiness. -/
def validateConfig (c : Config) : Except PyErr Unit :=
  if c.firebase.project_id = ("") then .error (.valueError msgProjRequired)
  else if c.trading.api_key = ("") ∨ c.trading.api_secret = ("") then
    .error (.valueError msgCredRequired)
  else .ok ()

/-- Intended load path of src/config.py: evaluate the four class bodies in
source order (a numeric conversion error propagates), build the Config value
as Config.__init__ does, and run `validateConfig`.  The dataclass
machinery's rejection of the list-typed defaults, which in CPython aborts
the module import before Config is ever reached, is modelled separately in
`importConfigModule`. -/
def mkConfig (env : EnvAssoc) : Except PyErr Config := do
  let fb := firebaseFromEnv env
  let tr ← tradingFromEnv env
  let ge ← geneticFromEnv env
  let lo := loggingFromEnv env
  let c : Config := ⟨fb, tr, ge, lo⟩
  match validateConfig c with
  | .error e => .error e
  | .ok _ => pure c

/-- Message of the ValueError raised by the dataclass decorator when a field
default is a mutable value: data_timeframes at src/config.py line 43 is the
first such field. -/
def msgMutableDefault : String :=
  "mutable default <class " ++ pyRepr ("list") ++
    "> for field data_timeframes is not allowed: use default_factory"

/-- Import-time semantics of src/config.py: the FirebaseConfig class body
and its dataclass decoration succeed; the TradingConfig class body runs (a
malformed numeric environment value raises here); then the TradingConfig
dataclass decoration rejects the list-typed default of data_timeframes, so
the import never completes and no Config value is ever produced. -/
def importConfigModule (env : EnvAssoc) : Except PyErr Config := do
  let _ := firebaseFromEnv env
  let _ ← tradingFromEnv env
  Except.error (.valueError msgMutableDefault)

/-- An external credential object (opaque to this core). -/
abbrev Cred := Nat

/-- An external application object registered by the external library. -/
abbrev App := Nat

/-- An external Firestore client handle (opaque to this core). -/
abbrev Client := Nat

/-- The credential dictionary built at src/firebase_client.py lines 36-48,
one entry per key of the source dict. -/
structure CredDict where
  type : String
  project_id : String
  private_key_id : String
  private_key : String
  client_email : String
  client_id : String
  auth_uri : String
  token_uri : String
  auth_provider_x509_cert_url : String
  client_x509_cert_url : String
  universe_domain : String
deriving DecidableEq, Repr

/-- Build the credential dictionary from a configuration exactly as
src/firebase_client.py lines 36-48 do (the source reads the module-global
config; here the configuration is passed explicitly). -/
def credDictOf (c : Config) : CredDict :=
  { type := c.firebase.type
    project_id := c.firebase.project_id
    private_key_id := c.firebase.private_key_id
    private_key := c.firebase.private_key
    client_email := c.firebase.client_email
    client_id := c.firebase.client_id
    auth_uri := c.firebase.auth_uri
    token_uri := c.firebase.token_uri
    auth_provider_x509_cert_url := c.firebase.auth_provider_x509_cert_url
    client_x509_cert_url := c.firebase.client_x509_cert_url
    universe_domain := c.firebase.universe_domain }

/-- The mutable attributes of a FirebaseClient instance
(src/firebase_client.py lines 26-27): the optional client reference and the
boolean readiness flag.  The class has no further state; in particular it
has no field in which an initialization error could be recorded. -/
structure FirebaseClient where
  client : Option Client
  initialized : Bool
deriving DecidableEq, Repr

/-- The external world as the modelled code observes it: the external
library's global application registry (firebase_admin._apps), and the
outcomes of the three external calls the code makes.  firebase_admin caches
the Firestore service per application, so the client obtained for an
unchanged registry is a fixed value of the world. -/
structure World where
  apps : List String
  certificate : CredDict → Except PyErr Cred
  appInit : Cred → Except PyErr App
  firestoreClient : Except PyErr Client

/-- Name under which initialize_app registers the default application. -/
def defaultAppName : String := "[DEFAULT]"

/-- External calls performed during a manager operation, in order. -/
inductive Ev where
  | certificateCall
  | initializeAppCall
  | firestoreClientCall
deriving DecidableEq, Repr

/-- Outcome of running FirebaseClient._initialize: the instance attributes
afterwards, the world afterwards, the external calls performed, and the
exception that propagated (none on normal return). -/
structure InitResult where
  self : FirebaseClient
  world : World
  events : List Ev
  err : Option PyErr

/-- FirebaseClient._initialize (src/firebase_client.py lines 30-61): when
the registry is empty, build the credential dictionary, construct the
certificate, and create the application (registering it); in every case then
obtain the Firestore client, store it, and set the readiness flag.  The
except-block at lines 58-61 logs and re-raises the exception unchanged, so
on failure the instance attributes keep whatever values they already had and
the original error propagates bare. -/
def initStep (self : FirebaseClient) (cfg : Config) (w : World) : InitResult :=
  match w.apps with
  | [] =>
    match w.certificate (credDictOf cfg) with
    | .error e => ⟨self, w, [.certificateCall], some e⟩
    | .ok cred =>
      match w.appInit cred with
      | .error e => ⟨self, w, [.certificateCall, .initializeAppCall], some e⟩
      | .ok _ =>
        match w.firestoreClient with
        | .error e =>
          ⟨self, { w with apps := [defaultAppName] },
            [.certificateCall, .initializeAppCall, .firestoreClientCall], some e⟩
        | .ok c =>
          ⟨⟨some c, true⟩, { w with apps := [defaultAppName] },
            [.certificateCall, .initializeAppCall, .firestoreClientCall], none⟩
  | _ :: _ =>
    match w.firestoreClient with
    | .error e => ⟨self, w, [.firestoreClientCall], some e⟩
    | .ok c => ⟨⟨some c, true⟩, w, [.firestoreClientCall], none⟩

/-- FirebaseClient.__init__ (src/firebase_client.py lines 24-28): the fresh
instance has no client and a false readiness flag, and _initialize runs
eagerly inside the constructor.  A `some` in the result's `err` field means
the constructor raised, so the caller receives no instance. -/
def mkFirebaseClient (cfg : Config) (w : World) : InitResult :=
  initStep ⟨none, false⟩ cfg w

/-- The spec-vocabulary state of a manager instance, read off the instance
attributes: `Ready` when the readiness flag is set and a client reference is
stored, otherwise `Uninitialized` (the source admits no observable
`Initializing` or `Failed` instance, see `mkFirebaseClient`). -/
def managerState (fc : FirebaseClient) : MgrState :=
  if fc.initialized && fc.client.isSome then .Ready else .Uninitialized

/-- A collection handle scoped to a collection name. -/
structure CollectionHandle where
  name : String
deriving DecidableEq, Repr

/-- Modelled from the spec: src/firebase_client.py truncates get_collection
at line 65 in the middle of the readiness test (`if not self.initialized
or`); the rest of the condition, the NotReadyError naming the current state,
and the returned name-scoped handle are missing from src and follow spec
sections 4.2 and 7.  The visible fragment of the condition is kept verbatim;
the accessor performs no external call and never initializes lazily, so it
is a pure function of the instance attributes and the name. -/
def get_collection (fc : FirebaseClient) (collection_name : String) :
    Except PyErr CollectionHandle :=
  if !fc.initialized || fc.client.isNone then
    .error (.notReadyError (managerState fc))
  else .ok ⟨collection_name⟩

/-- Environment holding exactly the three required variables. -/
def envReq : EnvAssoc :=
  [(("FIREBASE_PROJECT_ID"), ("p")), (("EXCHANGE_API_KEY"), ("k")),
    (("EXCHANGE_API_SECRET"), ("s"))]

/-- `envReq` with a malformed risk fraction. -/
def envRisk : EnvAssoc :=
  (("RISK_PER_TRADE"), ("not-a-number")) :: envReq

/-- `envReq` with a malformed mutation rate. -/
def envMut : EnvAssoc :=
  (("MUTATION_RATE"), ("not-a-number")) :: envReq

/-- Environment whose private key holds several escaped newlines. -/
def envPK : EnvAssoc :=
  (("FIREBASE_PRIVATE_KEY"), ("line1\\nline2\\nline3")) :: envReq

/-- The configuration value `mkConfig` produces on `envReq`: every optional
setting at its source default. -/
def cfgDefaults : Config :=
  { firebase :=
      { type := "service_account", project_id := "p", private_key_id := ""
        private_key := "", client_email := "", client_id := ""
        auth_uri := "https://accounts.google.com/o/oauth2/auth"
        token_uri := "https://oauth2.googleapis.com/token"
        auth_provider_x509_cert_url := "https://www.googleapis.com/oauth2/v1/certs"
        client_x509_cert_url := "", universe_domain := "googleapis.com" }
    trading :=
      { exchange_id := "binance", api_key := "k", api_secret := "s"
        initial_capital := .finite ⟨10000, 1⟩, risk_per_trade := .finite ⟨1, 50⟩
        max_open_positions := 5
        data_timeframes := [("1m"), ("5m"), ("15m"), ("1h"), ("4h"), ("1d")]
        backtest_period_days := 30
        trading_symbols := [("BTC/USDT"), ("ETH/USDT"), ("SOL/USDT"), ("ADA/USDT")] }
    genetic :=
      { population_size := 50, generations := 100, mutation_rate := .finite ⟨1, 10⟩
        crossover_rate := .finite ⟨7, 10⟩, elite_size := 5
        strategy_complexity_range := (3, 10) }
    logging :=
      { level := "INFO", format := "%(asctime)s - %(name)s - %(levelname)s - %(message)s"
        file_path := "trading_system.log" } }

/-- The parse error produced for the string not-a-number. -/
def floatNanMsg : String := msgFloatHead ++ pyRepr ("not-a-number")

/-- A configuration whose API secret alone is missing (the concrete scenario
of the spec: tenant proj-1, key k, empty secret). -/
def cfgSecretMissing : Config :=
  { cfgDefaults with
    firebase := { cfgDefaults.firebase with project_id := "proj-1" }
    trading := { cfgDefaults.trading with api_secret := "" } }

/-- A configuration whose API key alone is missing. -/
def cfgKeyMissing : Config :=
  { cfgDefaults with
    firebase := { cfgDefaults.firebase with project_id := "proj-1" }
    trading := { cfgDefaults.trading with api_key := "", api_secret := "sec" } }

/-- A world in which every external call succeeds and no application is
registered yet. -/
def wOk : World :=
  { apps := []
    certificate := fun _ => .ok 0
    appInit := fun _ => .ok 0
    firestoreClient := .ok 7 }

/-- The causal error of a failing credential construction. -/
def errBadCred : PyErr := .valueError ("bad credential material")

/-- A world in which credential construction fails. -/
def wCertFail : World :=
  { apps := []
    certificate := fun _ => .error errBadCred
    appInit := fun _ => .ok 0
    firestoreClient := .ok 7 }

/-- A fresh, never-initialized manager instance value. -/
def fcUninit : FirebaseClient := ⟨none, false⟩

/-- The optional-sign split performed by both numeric conversions; it names,
for the proofs, the inline sign handling of `pyFloat` and `pyInt`. -/
def signSplit (cs : List Char) : Bool × List Char :=
  match cs with
  | c :: rest =>
    if c = '-' then (true, rest) else if c = '+' then (false, rest) else (false, cs)
  | [] => (false, [])

/-- The raw environment reads fed to float() by the class bodies
(src/config.py lines 38-39 and 54-55), with their source defaults. -/
def numericFloatReads (env : EnvAssoc) : List String :=
  [getenvD env ("INITIAL_CAPITAL") ("10000.0"),
    getenvD env ("RISK_PER_TRADE") ("0.02"),
    getenvD env ("MUTATION_RATE") ("0.1"),
    getenvD env ("CROSSOVER_RATE") ("0.7")]

/-- The raw environment reads fed to int() by the class bodies
(src/config.py lines 40, 44, 52-53 and 56), with their source defaults. -/
def numericIntReads (env : EnvAssoc) : List String :=
  [getenvD env ("MAX_OPEN_POSITIONS") ("5"),
    getenvD env ("BACKTEST_PERIOD_DAYS") ("30"),
    getenvD env ("POPULATION_SIZE") ("50"),
    getenvD env ("GENERATIONS") ("100"),
    getenvD env ("ELITE_SIZE") ("5")]

/-- Validation success forces the three checked fields to be non-empty. -/
theorem validateConfig_ok_nonempty (c : Config) (h : validateConfig c = .ok ()) :
    ¬c.firebase.project_id = ("") ∧ ¬c.trading.api_key = ("") ∧
      ¬c.trading.api_secret = ("") := by
  unfold validateConfig at h
  split_ifs at h with h1 h2
  exact ⟨h1, (not_or.mp h2).1, (not_or.mp h2).2⟩

/-- Bind on a success value reduces to the continuation. -/
theorem exceptBindOk {α β : Type} (a : α) (f : α → Except PyErr β) :
    (Except.ok a : Except PyErr α) >>= f = f a := rfl

/-- Bind on an error propagates the error. -/
theorem exceptBindErr {α β : Type} (e : PyErr) (f : α → Except PyErr β) :
    (Except.error e : Except PyErr α) >>= f = Except.error e := rfl

/-- A successful load passes validation on the value it returns. -/
theorem mkConfig_ok_validate (env : EnvAssoc) (c : Config) (h : mkConfig env = .ok c) :
    validateConfig c = .ok () := by
  unfold mkConfig at h
  cases htr : tradingFromEnv env with
  | error e => rw [htr] at h; simp [exceptBindErr] at h
  | ok tr =>
    rw [htr, exceptBindOk] at h
    cases hge : geneticFromEnv env with
    | error e => rw [hge] at h; simp [exceptBindErr] at h
    | ok ge =>
      rw [hge, exceptBindOk] at h
      have h2 :
          (match validateConfig ⟨firebaseFromEnv env, tr, ge, loggingFromEnv env⟩ with
            | Except.error e => (Except.error e : Except PyErr Config)
            | Except.ok _ => pure ⟨firebaseFromEnv env, tr, ge, loggingFromEnv env⟩) =
            Except.ok c := h
      cases hv : validateConfig ⟨firebaseFromEnv env, tr, ge, loggingFromEnv env⟩ with
      | error e => rw [hv] at h2; simp at h2
      | ok u =>
        rw [hv] at h2
        cases u
        simp only [pure, Except.pure, Except.ok.injEq] at h2
        rw [← h2]
        exact hv

/-- C1: the claim that `validate()` names exactly the first missing field is
refuted by the source: a configuration with only the API secret missing and
one with only the API key missing raise the same ValueError, whose message
mentions neither the secret field nor any secret-specific name, so the error
cannot name exactly the first missing field (the spec scenario expects it to
name apiSecret). -/
theorem validate_secret_missing_counterexample :
    validateConfig cfgSecretMissing = .error (.valueError msgCredRequired) ∧
      validateConfig cfgKeyMissing = .error (.valueError msgCredRequired) ∧
      mentions msgCredRequired ("apiSecret") = false ∧
      mentions msgCredRequired ("SECRET") = false ∧
      mentions msgCredRequired ("secret") = false :=
  ⟨by decide, by decide, by decide, by decide, by decide⟩

/-- C1 (amended): validate checks the tenant identifier first and names it
when missing; otherwise a missing API key or API secret raises one shared
message naming the credential pair without distinguishing which member is
missing; when all three are non-empty validation succeeds regardless of
every other field. -/
theorem validate_required_order (c : Config) :
    (c.firebase.project_id = ("") →
        validateConfig c = .error (.valueError msgProjRequired)) ∧
      (¬c.firebase.project_id = ("") →
        (c.trading.api_key = ("") ∨ c.trading.api_secret = ("")) →
        validateConfig c = .error (.valueError msgCredRequired)) ∧
      (¬c.firebase.project_id = ("") → ¬c.trading.api_key = ("") →
        ¬c.trading.api_secret = ("") → validateConfig c = .ok ()) := by
  refine ⟨fun h1 => ?_, fun h1 h2 => ?_, fun h1 h2 h3 => ?_⟩
  · unfold validateConfig
    rw [if_pos h1]
  · unfold validateConfig
    rw [if_neg h1, if_pos h2]
  · unfold validateConfig
    rw [if_neg h1, if_neg (not_or.mpr ⟨h2, h3⟩)]

/-- C1 witness: on a configuration with all three required fields set,
validation succeeds. -/
theorem validate_required_order_witness : validateConfig cfgDefaults = .ok () :=
  (validate_required_order cfgDefaults).2.2 (by decide) (by decide) (by decide)

/-- C2: an accessor call on a manager that is not Ready fails with a
NotReadyError naming the manager's current state, and on a Ready manager it
returns the handle scoped to the requested name.  The accessor is a pure
function of the instance attributes, so it performs no side effect and never
initializes lazily. -/
theorem get_collection_readiness (fc : FirebaseClient) (nm : String) :
    (managerState fc ≠ MgrState.Ready →
        get_collection fc nm = .error (.notReadyError (managerState fc))) ∧
      (managerState fc = MgrState.Ready → get_collection fc nm = .ok ⟨nm⟩) := by
  rcases fc with ⟨c, i⟩
  cases i <;> cases c <;> simp [get_collection, managerState]

/-- C2 witness: a fresh manager asked for the trades collection fails with a
NotReadyError naming the Uninitialized state. -/
theorem get_collection_readiness_witness :
    get_collection fcUninit ("trades") = .error (.notReadyError MgrState.Uninitialized) := by
  have h := (get_collection_readiness fcUninit ("trades")).1 (by decide)
  simpa [managerState, fcUninit] using h

/-- Shape of a successful _initialize run: the stored client is the one the
world's client factory returns, the readiness flag is set, and afterwards
the registry is non-empty while the client factory outcome is unchanged. -/
theorem initStep_ok_shape (self : FirebaseClient) (cfg : Config) (w : World)
    (h : (initStep self cfg w).err = none) :
    ∃ c, w.firestoreClient = .ok c ∧
      (initStep self cfg w).self = ⟨some c, true⟩ ∧
      (initStep self cfg w).world.apps ≠ [] ∧
      (initStep self cfg w).world.firestoreClient = w.firestoreClient := by
  cases happ : w.apps with
  | nil =>
    cases hc : w.certificate (credDictOf cfg) with
    | error e => simp [initStep, happ, hc] at h
    | ok cr =>
      cases ha : w.appInit cr with
      | error e => simp [initStep, happ, hc, ha] at h
      | ok a =>
        cases hf : w.firestoreClient with
        | error e => simp [initStep, happ, hc, ha, hf] at h
        | ok c =>
          exact ⟨c, rfl, by simp [initStep, happ, hc, ha, hf],
            by simp [initStep, happ, hc, ha, hf, defaultAppName],
            by simp [initStep, happ, hc, ha, hf]⟩
  | cons hd tl =>
    cases hf : w.firestoreClient with
    | error e => simp [initStep, happ, hf] at h
    | ok c =>
      exact ⟨c, rfl, by simp [initStep, happ, hf], by simp [initStep, happ, hf],
        by simp [initStep, happ, hf]⟩

/-- When the registry already holds an application, _initialize skips
credential and application creation and only fetches the client handle. -/
theorem initStep_skip (self : FirebaseClient) (cfg : Config) (w : World)
    (hd : String) (tl : List String) (c : Client)
    (happ : w.apps = hd :: tl) (hf : w.firestoreClient = .ok c) :
    initStep self cfg w = ⟨⟨some c, true⟩, w, [Ev.firestoreClientCall], none⟩ := by
  simp [initStep, happ, hf]

/-- C3: the claim is refuted at a concrete input: a failing credential
construction leaves the constructor raising the causal error itself (not an
InitializationError wrapper), leaves the instance attributes exactly as
freshly assigned (nothing is recorded: the class has no error field and no
Failed marker), and a second _initialize run performs the credential
construction call again, so it re-attempts reconstruction instead of
re-raising a stored cause. -/
theorem initialize_failure_counterexample :
    (mkFirebaseClient cfgDefaults wCertFail).err = some errBadCred ∧
      (mkFirebaseClient cfgDefaults wCertFail).self = fcUninit ∧
      (initStep (mkFirebaseClient cfgDefaults wCertFail).self cfgDefaults
          (mkFirebaseClient cfgDefaults wCertFail).world).events = [Ev.certificateCall] ∧
      (initStep (mkFirebaseClient cfgDefaults wCertFail).self cfgDefaults
          (mkFirebaseClient cfgDefaults wCertFail).world).err = some errBadCred :=
  ⟨by decide, by decide, by decide, by decide⟩

/-- C3 (amended): when credential construction or application creation fails
inside _initialize, the original exception propagates unwrapped, the
instance attributes are left untouched (no error is recorded and there is no
Failed state), and a second _initialize call on the unchanged manager simply
repeats the whole attempt, including the credential-construction call. -/
theorem initialize_failure_behavior (self : FirebaseClient) (cfg : Config) (w : World)
    (happ : w.apps = []) :
    (∀ e, w.certificate (credDictOf cfg) = .error e →
        initStep self cfg w = ⟨self, w, [Ev.certificateCall], some e⟩ ∧
          initStep (initStep self cfg w).self cfg (initStep self cfg w).world =
            ⟨self, w, [Ev.certificateCall], some e⟩) ∧
      ∀ cr e, w.certificate (credDictOf cfg) = .ok cr → w.appInit cr = .error e →
        initStep self cfg w =
          ⟨self, w, [Ev.certificateCall, Ev.initializeAppCall], some e⟩ := by
  constructor
  · intro e he
    have h1 : initStep self cfg w = ⟨self, w, [Ev.certificateCall], some e⟩ := by
      simp [initStep, happ, he]
    refine ⟨h1, ?_⟩
    rw [h1]
    exact h1
  · intro cr e hc ha
    simp [initStep, happ, hc, ha]

/-- C3 witness: the failure behavior at a concrete failing world. -/
theorem initialize_failure_behavior_witness :
    initStep fcUninit cfgDefaults wCertFail =
      ⟨fcUninit, wCertFail, [Ev.certificateCall], some errBadCred⟩ :=
  ((initialize_failure_behavior fcUninit cfgDefaults wCertFail rfl).1 errBadCred rfl).1

/-- C4: after a successful constructor run, a second _initialize call on the
same manager returns without error, performs only the client-handle call
(skipping credential and application creation because the registry is
non-empty), and leaves the instance attributes, including the stored client
reference, and the world unchanged. -/
theorem initialize_idempotent_on_success (cfg : Config) (w : World)
    (h : (mkFirebaseClient cfg w).err = none) :
    initStep (mkFirebaseClient cfg w).self cfg (mkFirebaseClient cfg w).world =
      { self := (mkFirebaseClient cfg w).self
        world := (mkFirebaseClient cfg w).world
        events := [Ev.firestoreClientCall]
        err := none } := by
  obtain ⟨c, hf, hself, happs, hfw⟩ := initStep_ok_shape ⟨none, false⟩ cfg w h
  have hself2 : (mkFirebaseClient cfg w).self = ⟨some c, true⟩ := hself
  have hfw2 : (mkFirebaseClient cfg w).world.firestoreClient = w.firestoreClient := hfw
  have happs2 : (mkFirebaseClient cfg w).world.apps ≠ [] := happs
  obtain ⟨hd, tl, hcons⟩ := List.exists_cons_of_ne_nil happs2
  have h2 := initStep_skip (mkFirebaseClient cfg w).self cfg
    (mkFirebaseClient cfg w).world hd tl c hcons (by rw [hfw2]; exact hf)
  rw [h2, hself2]

/-- C4 witness: idempotence at a concrete all-success world. -/
theorem initialize_idempotent_on_success_witness :
    initStep (mkFirebaseClient cfgDefaults wOk).self cfgDefaults
        (mkFirebaseClient cfgDefaults wOk).world =
      { self := (mkFirebaseClient cfgDefaults wOk).self
        world := (mkFirebaseClient cfgDefaults wOk).world
        events := [Ev.firestoreClientCall]
        err := none } :=
  initialize_idempotent_on_success cfgDefaults wOk (by decide)

/-- C10: initialization runs eagerly inside the constructor, so whenever the
constructor returns normally the produced manager is Ready (readiness flag
set and client reference stored); when it raises, the error propagates and
the caller receives no instance. -/
theorem constructor_eager_readiness (cfg : Config) (w : World)
    (h : (mkFirebaseClient cfg w).err = none) :
    managerState (mkFirebaseClient cfg w).self = MgrState.Ready := by
  obtain ⟨c, hf, hself, -, -⟩ := initStep_ok_shape ⟨none, false⟩ cfg w h
  have hself2 : (mkFirebaseClient cfg w).self = ⟨some c, true⟩ := hself
  rw [hself2]
  simp [managerState]

/-- C10 witness: a concrete successful construction is Ready. -/
theorem constructor_eager_readiness_witness :
    managerState (mkFirebaseClient cfgDefaults wOk).self = MgrState.Ready :=
  constructor_eager_readiness cfgDefaults wOk (by decide)

/-- C5: the claimed invariant is refuted at a concrete input: with only the
three validated variables set, construction succeeds although the private
key identifier and private key material of the produced configuration are
empty, so a configuration violating the claimed invariant is produced. -/
theorem config_private_key_unchecked_counterexample :
    mkConfig envReq = .ok cfgDefaults ∧
      cfgDefaults.firebase.private_key = ("") ∧
      cfgDefaults.firebase.private_key_id = ("") :=
  ⟨by decide, by decide, by decide⟩

/-- C5 (amended): every successfully constructed configuration has a
non-empty project identifier, API key and API secret; the private key
identifier and private key material are not validated and may be empty. -/
theorem config_invariant_required_fields (env : EnvAssoc) (c : Config)
    (h : mkConfig env = .ok c) :
    ¬c.firebase.project_id = ("") ∧ ¬c.trading.api_key = ("") ∧
      ¬c.trading.api_secret = ("") :=
  validateConfig_ok_nonempty c (mkConfig_ok_validate env c h)

/-- C5 witness: the invariant at a concrete successful construction. -/
theorem config_invariant_required_fields_witness :
    ¬cfgDefaults.firebase.project_id = ("") ∧ ¬cfgDefaults.trading.api_key = ("") ∧
      ¬cfgDefaults.trading.api_secret = ("") :=
  config_invariant_required_fields envReq cfgDefaults (by decide)

/-- C6: the claim that the parse failure names the offending field is
refuted at a concrete input: a malformed risk fraction makes load fail with
the float conversion ValueError, whose message mentions the offending value
but not the field, and a malformed mutation rate produces the identical
error, so the error cannot name the offending field. -/
theorem load_parse_error_counterexample :
    mkConfig envRisk = .error (.valueError floatNanMsg) ∧
      mentions floatNanMsg ("RISK_PER_TRADE") = false ∧
      mentions floatNanMsg ("risk") = false ∧
      mkConfig envMut = mkConfig envRisk :=
  ⟨by decide, by decide, by decide, by decide⟩

/-- A float conversion failure raises exactly the float() ValueError naming
the offending value. -/
theorem pyFloat_error_msg (s : String) (e : PyErr) (h : pyFloat s = .error e) :
    e = .valueError (msgFloatHead ++ pyRepr s) := by
  have hdef : pyFloat s =
      (if lowerEq (signSplit (stripWs s.data)).2 ['i', 'n', 'f'] ∨
          lowerEq (signSplit (stripWs s.data)).2
            ['i', 'n', 'f', 'i', 'n', 'i', 't', 'y'] then
        .ok (.infinite (signSplit (stripWs s.data)).1)
      else if lowerEq (signSplit (stripWs s.data)).2 ['n', 'a', 'n'] then .ok .nan
      else
        match floatCore (signSplit (stripWs s.data)).2 with
        | some q => .ok (.finite (if (signSplit (stripWs s.data)).1 then negPyQ q else q))
        | none => .error (.valueError (msgFloatHead ++ pyRepr s))) := rfl
  rw [hdef] at h
  cases hfc : floatCore (signSplit (stripWs s.data)).2 with
  | some q =>
    rw [hfc] at h
    split_ifs at h
  | none =>
    rw [hfc] at h
    split_ifs at h <;> exact (Except.error.inj h).symm

/-- An int conversion failure raises exactly the int() ValueError naming the
offending value. -/
theorem pyInt_error_msg (s : String) (e : PyErr) (h : pyInt s = .error e) :
    e = .valueError (msgIntHead ++ pyRepr s) := by
  have hdef : pyInt s =
      (if (signSplit (stripWs s.data)).2 ≠ [] ∧
          ((signSplit (stripWs s.data)).2).all Char.isDigit then
        .ok ((if (signSplit (stripWs s.data)).1 then -1 else 1) *
          (digitsToNat (signSplit (stripWs s.data)).2 0 : Int))
      else .error (.valueError (msgIntHead ++ pyRepr s))) := rfl
  rw [hdef] at h
  split_ifs at h
  exact (Except.error.inj h).symm

/-- C6 (amended): whenever any of the nine numeric-typed settings — the four
float-typed and the five int-typed ones — holds a malformed value, load
fails (no default is substituted and loading never succeeds), and the raised
error is the plain ValueError of float() or int(), naming the offending raw
value of one of the numeric settings rather than the field. -/
theorem load_malformed_numeric_fails (env : EnvAssoc)
    (h : (∃ s, s ∈ numericFloatReads env ∧ ∃ e, pyFloat s = .error e) ∨
      (∃ s, s ∈ numericIntReads env ∧ ∃ e, pyInt s = .error e)) :
    ∃ v e, mkConfig env = .error e ∧
      ((v ∈ numericFloatReads env ∧ e = .valueError (msgFloatHead ++ pyRepr v)) ∨
        (v ∈ numericIntReads env ∧ e = .valueError (msgIntHead ++ pyRepr v))) := by
  cases h1 : pyFloat (getenvD env ("INITIAL_CAPITAL") ("10000.0")) with
  | error e =>
    refine ⟨getenvD env ("INITIAL_CAPITAL") ("10000.0"), e, ?_,
      Or.inl ⟨by simp [numericFloatReads], pyFloat_error_msg _ _ h1⟩⟩
    have htr : tradingFromEnv env = .error e := by
      unfold tradingFromEnv; rw [h1]; rfl
    unfold mkConfig; rw [htr]; rfl
  | ok q1 =>
    cases h2 : pyFloat (getenvD env ("RISK_PER_TRADE") ("0.02")) with
    | error e =>
      refine ⟨getenvD env ("RISK_PER_TRADE") ("0.02"), e, ?_,
        Or.inl ⟨by simp [numericFloatReads], pyFloat_error_msg _ _ h2⟩⟩
      have htr : tradingFromEnv env = .error e := by
        unfold tradingFromEnv; rw [h1, exceptBindOk, h2]; rfl
      unfold mkConfig; rw [htr]; rfl
    | ok q2 =>
      cases h3 : pyInt (getenvD env ("MAX_OPEN_POSITIONS") ("5")) with
      | error e =>
        refine ⟨getenvD env ("MAX_OPEN_POSITIONS") ("5"), e, ?_,
          Or.inr ⟨by simp [numericIntReads], pyInt_error_msg _ _ h3⟩⟩
        have htr : tradingFromEnv env = .error e := by
          unfold tradingFromEnv; rw [h1, exceptBindOk, h2, exceptBindOk, h3]; rfl
        unfold mkConfig; rw [htr]; rfl
      | ok q3 =>
        cases h4 : pyInt (getenvD env ("BACKTEST_PERIOD_DAYS") ("30")) with
        | error e =>
          refine ⟨getenvD env ("BACKTEST_PERIOD_DAYS") ("30"), e, ?_,
            Or.inr ⟨by simp [numericIntReads], pyInt_error_msg _ _ h4⟩⟩
          have htr : tradingFromEnv env = .error e := by
            unfold tradingFromEnv
            rw [h1, exceptBindOk, h2, exceptBindOk, h3, exceptBindOk, h4]; rfl
          unfold mkConfig; rw [htr]; rfl
        | ok q4 =>
          have htrok : tradingFromEnv env = .ok
              { exchange_id := getenvD env ("EXCHANGE_ID") ("binance")
                api_key := getenvD env ("EXCHANGE_API_KEY") ("")
                api_secret := getenvD env ("EXCHANGE_API_SECRET") ("")
                initial_capital := q1, risk_per_trade := q2, max_open_positions := q3
                data_timeframes := [("1m"), ("5m"), ("15m"), ("1h"), ("4h"), ("1d")]
                backtest_period_days := q4
                trading_symbols :=
                  [("BTC/USDT"), ("ETH/USDT"), ("SOL/USDT"), ("ADA/USDT")] } := by
            unfold tradingFromEnv
            rw [h1, exceptBindOk, h2, exceptBindOk, h3, exceptBindOk, h4, exceptBindOk]
            rfl
          cases h5 : pyInt (getenvD env ("POPULATION_SIZE") ("50")) with
          | error e =>
            refine ⟨getenvD env ("POPULATION_SIZE") ("50"), e, ?_,
              Or.inr ⟨by simp [numericIntReads], pyInt_error_msg _ _ h5⟩⟩
            have hge : geneticFromEnv env = .error e := by
              unfold geneticFromEnv; rw [h5]; rfl
            unfold mkConfig; rw [htrok, exceptBindOk, hge]; rfl
          | ok q5 =>
            cases h6 : pyInt (getenvD env ("GENERATIONS") ("100")) with
            | error e =>
              refine ⟨getenvD env ("GENERATIONS") ("100"), e, ?_,
                Or.inr ⟨by simp [numericIntReads], pyInt_error_msg _ _ h6⟩⟩
              have hge : geneticFromEnv env = .error e := by
                unfold geneticFromEnv; rw [h5, exceptBindOk, h6]; rfl
              unfold mkConfig; rw [htrok, exceptBindOk, hge]; rfl
            | ok q6 =>
              cases h7 : pyFloat (getenvD env ("MUTATION_RATE") ("0.1")) with
              | error e =>
                refine ⟨getenvD env ("MUTATION_RATE") ("0.1"), e, ?_,
                  Or.inl ⟨by simp [numericFloatReads], pyFloat_error_msg _ _ h7⟩⟩
                have hge : geneticFromEnv env = .error e := by
                  unfold geneticFromEnv; rw [h5, exceptBindOk, h6, exceptBindOk, h7]; rfl
                unfold mkConfig; rw [htrok, exceptBindOk, hge]; rfl
              | ok q7 =>
                cases h8 : pyFloat (getenvD env ("CROSSOVER_RATE") ("0.7")) with
                | error e =>
                  refine ⟨getenvD env ("CROSSOVER_RATE") ("0.7"), e, ?_,
                    Or.inl ⟨by simp [numericFloatReads], pyFloat_error_msg _ _ h8⟩⟩
                  have hge : geneticFromEnv env = .error e := by
                    unfold geneticFromEnv
                    rw [h5, exceptBindOk, h6, exceptBindOk, h7, exceptBindOk, h8]; rfl
                  unfold mkConfig; rw [htrok, exceptBindOk, hge]; rfl
                | ok q8 =>
                  cases h9 : pyInt (getenvD env ("ELITE_SIZE") ("5")) with
                  | error e =>
                    refine ⟨getenvD env ("ELITE_SIZE") ("5"), e, ?_,
                      Or.inr ⟨by simp [numericIntReads], pyInt_error_msg _ _ h9⟩⟩
                    have hge : geneticFromEnv env = .error e := by
                      unfold geneticFromEnv
                      rw [h5, exceptBindOk, h6, exceptBindOk, h7, exceptBindOk, h8,
                        exceptBindOk, h9]
                      rfl
                    unfold mkConfig; rw [htrok, exceptBindOk, hge]; rfl
                  | ok q9 =>
                    exfalso
                    rcases h with ⟨s, hs, e, he⟩ | ⟨s, hs, e, he⟩
                    · simp [numericFloatReads] at hs
                      rcases hs with rfl | rfl | rfl | rfl
                      · rw [h1] at he; simp at he
                      · rw [h2] at he; simp at he
                      · rw [h7] at he; simp at he
                      · rw [h8] at he; simp at he
                    · simp [numericIntReads] at hs
                      rcases hs with rfl | rfl | rfl | rfl | rfl
                      · rw [h3] at he; simp at he
                      · rw [h4] at he; simp at he
                      · rw [h5] at he; simp at he
                      · rw [h6] at he; simp at he
                      · rw [h9] at he; simp at he

/-- C6 witness: the amended behavior at the concrete environment with a
malformed risk fraction. -/
theorem load_malformed_numeric_fails_witness :
    ∃ v e, mkConfig envRisk = .error e ∧
      ((v ∈ numericFloatReads envRisk ∧ e = .valueError (msgFloatHead ++ pyRepr v)) ∨
        (v ∈ numericIntReads envRisk ∧ e = .valueError (msgIntHead ++ pyRepr v))) :=
  load_malformed_numeric_fails envRisk
    (Or.inl ⟨getenvD envRisk ("RISK_PER_TRADE") ("0.02"), by decide,
      .valueError floatNanMsg, by decide⟩)

/-- C7: the per-field semantics of the class bodies do substitute exactly
the documented defaults when the optional settings are absent, but the
module import itself always fails: the dataclass machinery rejects the
list-typed default of data_timeframes before Config can ever be
constructed, for every environment. -/
theorem defaults_and_import_crash :
    tradingFromEnv ([] : EnvAssoc) = .ok
        { exchange_id := "binance", api_key := "", api_secret := ""
          initial_capital := .finite ⟨10000, 1⟩, risk_per_trade := .finite ⟨1, 50⟩
          max_open_positions := 5
          data_timeframes := [("1m"), ("5m"), ("15m"), ("1h"), ("4h"), ("1d")]
          backtest_period_days := 30
          trading_symbols := [("BTC/USDT"), ("ETH/USDT"), ("SOL/USDT"), ("ADA/USDT")] } ∧
      geneticFromEnv ([] : EnvAssoc) = .ok
        { population_size := 50, generations := 100, mutation_rate := .finite ⟨1, 10⟩
          crossover_rate := .finite ⟨7, 10⟩, elite_size := 5
          strategy_complexity_range := (3, 10) } ∧
      importConfigModule envReq = .error (.valueError msgMutableDefault) ∧
      ∀ env : EnvAssoc, ∃ e, importConfigModule env = .error e := by
  refine ⟨by decide, by decide, by decide, fun env => ?_⟩
  cases htr : tradingFromEnv env with
  | error e =>
    refine ⟨e, ?_⟩
    unfold importConfigModule
    rw [htr]
    rfl
  | ok tr =>
    refine ⟨.valueError msgMutableDefault, ?_⟩
    unfold importConfigModule
    rw [htr]
    rfl

/-- C8: load-time normalization of the private key: the stored private key
is the raw environment value with every backslash-n escape replaced by a
literal newline, and no other field is touched by the replacement — every
other string-typed field equals its raw environment read; the closing
conjunct instantiates the normalization on a value with several escapes. -/
theorem private_key_normalization :
    (∀ env : EnvAssoc,
        ((firebaseFromEnv env).private_key =
            pyReplace (getenvD env ("FIREBASE_PRIVATE_KEY") ("")) ("\\n") ("\n") ∧
          (firebaseFromEnv env).type = getenvD env ("FIREBASE_TYPE") ("service_account") ∧
          (firebaseFromEnv env).project_id = getenvD env ("FIREBASE_PROJECT_ID") ("") ∧
          (firebaseFromEnv env).private_key_id =
            getenvD env ("FIREBASE_PRIVATE_KEY_ID") ("") ∧
          (firebaseFromEnv env).client_email = getenvD env ("FIREBASE_CLIENT_EMAIL") ("") ∧
          (firebaseFromEnv env).client_id = getenvD env ("FIREBASE_CLIENT_ID") ("") ∧
          (firebaseFromEnv env).auth_uri =
            getenvD env ("FIREBASE_AUTH_URI") ("https://accounts.google.com/o/oauth2/auth") ∧
          (firebaseFromEnv env).token_uri =
            getenvD env ("FIREBASE_TOKEN_URI") ("https://oauth2.googleapis.com/token") ∧
          (firebaseFromEnv env).auth_provider_x509_cert_url =
            getenvD env ("FIREBASE_AUTH_PROVIDER_CERT_URL")
              ("https://www.googleapis.com/oauth2/v1/certs") ∧
          (firebaseFromEnv env).client_x509_cert_url =
            getenvD env ("FIREBASE_CLIENT_CERT_URL") ("") ∧
          (firebaseFromEnv env).universe_domain =
            getenvD env ("FIREBASE_UNIVERSE_DOMAIN") ("googleapis.com")) ∧
        ((loggingFromEnv env).level = getenvD env ("LOG_LEVEL") ("INFO") ∧
          (loggingFromEnv env).file_path = getenvD env ("LOG_FILE") ("trading_system.log")) ∧
        ∀ tr, tradingFromEnv env = .ok tr →
          tr.exchange_id = getenvD env ("EXCHANGE_ID") ("binance") ∧
            tr.api_key = getenvD env ("EXCHANGE_API_KEY") ("") ∧
            tr.api_secret = getenvD env ("EXCHANGE_API_SECRET") ("")) ∧
      (firebaseFromEnv envPK).private_key = ("line1\nline2\nline3") := by
  refine
    ⟨fun env =>
      ⟨⟨rfl, rfl, rfl, rfl, rfl, rfl, rfl, rfl, rfl, rfl, rfl⟩, ⟨rfl, rfl⟩, ?_⟩,
      by decide⟩
  intro tr h
  unfold tradingFromEnv at h
  cases h1 : pyFloat (getenvD env ("INITIAL_CAPITAL") ("10000.0")) with
  | error e => rw [h1, exceptBindErr] at h; simp at h
  | ok q1 =>
    rw [h1, exceptBindOk] at h
    cases h2 : pyFloat (getenvD env ("RISK_PER_TRADE") ("0.02")) with
    | error e => rw [h2, exceptBindErr] at h; simp at h
    | ok q2 =>
      rw [h2, exceptBindOk] at h
      cases h3 : pyInt (getenvD env ("MAX_OPEN_POSITIONS") ("5")) with
      | error e => rw [h3, exceptBindErr] at h; simp at h
      | ok q3 =>
        rw [h3, exceptBindOk] at h
        cases h4 : pyInt (getenvD env ("BACKTEST_PERIOD_DAYS") ("30")) with
        | error e => rw [h4, exceptBindErr] at h; simp at h
        | ok q4 =>
          rw [h4, exceptBindOk] at h
          simp only [pure, Except.pure, Except.ok.injEq] at h
          rw [← h]
          exact ⟨rfl, rfl, rfl⟩

/-- C8 witness: the untouched trading string fields at a concrete
environment. -/
theorem private_key_normalization_witness :
    cfgDefaults.trading.exchange_id = getenvD envReq ("EXCHANGE_ID") ("binance") ∧
      cfgDefaults.trading.api_key = getenvD envReq ("EXCHANGE_API_KEY") ("") ∧
      cfgDefaults.trading.api_secret = getenvD envReq ("EXCHANGE_API_SECRET") ("") :=
  (private_key_normalization.1 envReq).2.2 cfgDefaults.trading (by decide)

/-- C9: load is deterministic — on one environment it is a fixed outcome,
and two successful results agree in every field of every sub-group. -/
theorem load_deterministic (env : EnvAssoc) :
    mkConfig env = mkConfig env ∧
      ∀ c1 c2, mkConfig env = .ok c1 → mkConfig env = .ok c2 →
        c1.firebase = c2.firebase ∧ c1.trading = c2.trading ∧
          c1.genetic = c2.genetic ∧ c1.logging = c2.logging := by
  refine ⟨rfl, fun c1 c2 h1 h2 => ?_⟩
  rw [h1] at h2
  injection h2 with h
  subst h
  exact ⟨rfl, rfl, rfl, rfl⟩

/-- C9 witness: determinism at a concrete environment. -/
theorem load_deterministic_witness :
    cfgDefaults.firebase = cfgDefaults.firebase ∧
      cfgDefaults.trading = cfgDefaults.trading ∧
      cfgDefaults.genetic = cfgDefaults.genetic ∧
      cfgDefaults.logging = cfgDefaults.logging :=
  (load_deterministic envReq).2 cfgDefaults cfgDefaults (by decide) (by decide)

end AGTM
